import Mathlib

/-!
Verification development for the D3D12/Vulkan command-buffer recording layer of
a WebGPU-style ray-tracing graphics implementation.

The definitions below are shallow embeddings of the C++ sources:
* the Vulkan copy-region calculator (`ComputeTextureCopyExtent`,
  `ComputeBufferImageCopyRegion`),
* the D3D12 command-buffer recorder for acceleration-container build/update
  commands (`CommandBuffer::RecordCommands`),
* the D3D12 `BindGroupStateTracker::Apply` heap-rotation protocol,
* the D3D12 `VertexBufferTracker`,
* the Vulkan `RayTracingAccelerationContainer::Initialize` constructor.

C++ `ASSERT` failures and `DAWN_VALIDATION_ERROR` returns are modelled with
`Except`; machine integers are modelled with `Nat` (no arithmetic in the
embedded code can overflow on the validated inputs, and none of the claims
concerns wrap-around behaviour).
-/

/-! ## Copy Region Calculator (Vulkan UtilsVulkan.cpp) -/

/-- `Extent3D` from the neutral API: width/height/depth in texels. -/
structure Extent3D where
  width : Nat
  height : Nat
  depth : Nat
deriving DecidableEq, Repr

/-- `Origin3D`: a texel offset into a texture. -/
structure Origin3D where
  x : Nat
  y : Nat
  z : Nat
deriving DecidableEq, Repr

/-- The fields of `dawn_native::Format` consulted by the copy calculator. -/
structure FormatModel where
  isCompressed : Bool
  blockByteSize : Nat
  blockWidth : Nat
deriving DecidableEq, Repr

/-- The behaviour of a `TextureBase` the copy calculator reads:
its format, its per-mip-level virtual size, and its Vk aspect mask. -/
structure TextureModel where
  format : FormatModel
  virtualSize : Nat → Extent3D
  aspectMask : Nat

/-- `TextureCopy`: one side of a buffer↔texture copy. -/
structure TextureCopy where
  texture : TextureModel
  mipLevel : Nat
  arrayLayer : Nat
  origin : Origin3D

/-- `BufferCopy`: the linear-buffer side of a buffer↔texture copy. -/
structure BufferCopy where
  offset : Nat
  bytesPerRow : Nat
  rowsPerImage : Nat
deriving DecidableEq, Repr

/-- The two `ASSERT`s in the copy calculator, modelled as fatal errors. -/
inductive CopyAssert where
  | nonCompressedClamp
  | bytesPerRowNotBlockMultiple
deriving DecidableEq, Repr

/-- `ComputeTextureCopyExtent` (UtilsVulkan.cpp): clamps the copy extent to the
mip level's virtual size.  The C++ asserts `texture->GetFormat().isCompressed`
before clamping either the width or the height; the depth is copied through
unchanged. -/
def ComputeTextureCopyExtent (textureCopy : TextureCopy) (copySize : Extent3D) :
    Except CopyAssert Extent3D :=
  let virtualSizeAtLevel := textureCopy.texture.virtualSize textureCopy.mipLevel
  let widthResult : Except CopyAssert Nat :=
    if textureCopy.origin.x + copySize.width > virtualSizeAtLevel.width then
      if textureCopy.texture.format.isCompressed then
        Except.ok (virtualSizeAtLevel.width - textureCopy.origin.x)
      else
        Except.error CopyAssert.nonCompressedClamp
    else
      Except.ok copySize.width
  let heightResult : Except CopyAssert Nat :=
    if textureCopy.origin.y + copySize.height > virtualSizeAtLevel.height then
      if textureCopy.texture.format.isCompressed then
        Except.ok (virtualSizeAtLevel.height - textureCopy.origin.y)
      else
        Except.error CopyAssert.nonCompressedClamp
    else
      Except.ok copySize.height
  match widthResult with
  | Except.error e => Except.error e
  | Except.ok width =>
    match heightResult with
    | Except.error e => Except.error e
    | Except.ok height =>
      Except.ok { width := width, height := height, depth := copySize.depth }

/-- The fields of `VkBufferImageCopy` filled in by the copy calculator
(`imageSubresource` flattened into the four scalar fields). -/
structure VkBufferImageCopy where
  bufferOffset : Nat
  bufferRowLength : Nat
  bufferImageHeight : Nat
  aspectMask : Nat
  mipLevel : Nat
  baseArrayLayer : Nat
  layerCount : Nat
  imageOffset : Origin3D
  imageExtent : Extent3D
deriving DecidableEq, Repr

/-- `ComputeBufferImageCopyRegion` (UtilsVulkan.cpp): converts the byte-based
row stride into the Vulkan texel-based row length, asserting the stride is an
exact multiple of the format's block byte size; the image extent comes from
`ComputeTextureCopyExtent` except for the depth, which is taken directly from
`copySize`. -/
def ComputeBufferImageCopyRegion (bufferCopy : BufferCopy) (textureCopy : TextureCopy)
    (copySize : Extent3D) : Except CopyAssert VkBufferImageCopy :=
  let format := textureCopy.texture.format
  if bufferCopy.bytesPerRow % format.blockByteSize ≠ 0 then
    Except.error CopyAssert.bytesPerRowNotBlockMultiple
  else
    let bufferRowLength := bufferCopy.bytesPerRow / format.blockByteSize * format.blockWidth
    match ComputeTextureCopyExtent textureCopy copySize with
    | Except.error e => Except.error e
    | Except.ok imageExtent =>
      Except.ok
        { bufferOffset := bufferCopy.offset
          bufferRowLength := bufferRowLength
          bufferImageHeight := bufferCopy.rowsPerImage
          aspectMask := textureCopy.texture.aspectMask
          mipLevel := textureCopy.mipLevel
          baseArrayLayer := textureCopy.arrayLayer
          layerCount := 1
          imageOffset := textureCopy.origin
          imageExtent := { width := imageExtent.width
                           height := imageExtent.height
                           depth := copySize.depth } }

/-! ## Acceleration-container commands in `CommandBuffer::RecordCommands`
(CommandBufferD3D12.cpp)

The recorder walks the command stream once.  For the ray-tracing
acceleration-container commands it records native calls onto the command list,
mutates the (shared, persistent) container objects, and tracks two locals
`lastBuildContainer` / `lastUpdateContainer` used for the ordering validation.
Containers are named by `Nat` identifiers; `RecState.containers` maps an
identifier to the container object's mutable state. -/

/-- `wgpu::RayTracingAccelerationContainerLevel`. -/
inductive ContainerLevel where
  | bottom
  | top
deriving DecidableEq, Repr

/-- The mutable state of a `RayTracingAccelerationContainer` object read and
written by `RecordCommands`: lifecycle flags (`IsBuilt`/`IsUpdated`), whether
the build-scratch memory still exists, the container's level, and the GPU
addresses of the three scratch-memory regions. -/
structure AccelContainer where
  built : Bool
  updated : Bool
  hasBuildScratch : Bool
  level : ContainerLevel
  resultAddr : Nat
  buildAddr : Nat
  updateAddr : Nat
deriving DecidableEq, Repr

/-- Native calls recorded onto the D3D12 command list by the
acceleration-container command handlers, plus the container-object side effect
of `DestroyScratchBuildMemory`. -/
inductive NativeAction where
  | buildAccel (srcAddr dstAddr scratchAddr : Nat) (performUpdate : Bool)
  | uavBarrier (resourceAddr : Nat)
  | copyAccel (dstAddr srcAddr : Nat)
  | destroyScratchBuild (container : Nat)
deriving DecidableEq, Repr

/-- The `DAWN_VALIDATION_ERROR`s returned by the acceleration-container
command handlers in `RecordCommands`. -/
inductive RecordError where
  | buildAfterUpdate
  | mixedLevelsBuild
  | updateAfterBuild
  | mixedLevelsUpdate
deriving DecidableEq, Repr

/-- The acceleration-container commands of the neutral command stream. -/
inductive RTCommand where
  | build (container : Nat)
  | update (container : Nat)
  | copy (srcContainer dstContainer : Nat)
deriving DecidableEq, Repr

/-- The state threaded through `RecordCommands`: the container objects, the
two ordering-validation locals, and the native command list recorded so far. -/
structure RecState where
  containers : Nat → AccelContainer
  lastBuildContainer : Option Nat
  lastUpdateContainer : Option Nat
  actions : List NativeAction

/-- Update one container object in the container map. -/
def setContainer (m : Nat → AccelContainer) (c : Nat) (v : AccelContainer) :
    Nat → AccelContainer :=
  fun i => if i = c then v else m i

/-- The side effects the `Command::BuildRayTracingAccelerationContainer`
handler performs before its ordering checks run: record the native build call
(source = 0, destination = result memory, scratch = build-scratch memory, no
perform-update flag), record the UAV barrier on the result memory, and
`SetBuildState(true)` on the container object. -/
def buildMutate (s : RecState) (c : Nat) : RecState :=
  let cs := s.containers c
  { s with
    actions := s.actions ++
      [NativeAction.buildAccel 0 cs.resultAddr cs.buildAddr false,
       NativeAction.uavBarrier cs.resultAddr]
    containers := setContainer s.containers c { cs with built := true } }

/-- The ordering checks at the end of the build handler: a build after any
update in the same stream is rejected, a build whose container level differs
from the previous build's is rejected, and otherwise `lastBuildContainer` is
set. -/
def buildOrderCheck (s : RecState) (c : Nat) : RecState × Option RecordError :=
  if s.lastUpdateContainer.isSome then
    (s, some RecordError.buildAfterUpdate)
  else
    match s.lastBuildContainer with
    | some b =>
      if (s.containers b).level ≠ (s.containers c).level then
        (s, some RecordError.mixedLevelsBuild)
      else
        ({ s with lastBuildContainer := some c }, none)
    | none => ({ s with lastBuildContainer := some c }, none)

/-- The side effects the `Command::UpdateRayTracingAccelerationContainer`
handler performs before its ordering checks run: on the first update after a
build (`IsBuilt() && !IsUpdated()`) it first destroys the build-scratch memory
and sets the update state; it then records the native build call with the
perform-update flag (source = destination = result memory, scratch =
update-scratch memory), records the UAV barrier on the result memory, and
`SetBuildState(true)` on the container object. -/
def updateMutate (s : RecState) (c : Nat) : RecState :=
  let cs := s.containers c
  -- "we can destroy the scratch build memory after the first update"
  let firstUpdate := cs.built && !cs.updated
  let cs1 := if firstUpdate then
      { cs with updated := true, hasBuildScratch := false }
    else cs
  let destroyActions := if firstUpdate then [NativeAction.destroyScratchBuild c] else []
  { s with
    actions := s.actions ++ destroyActions ++
      [NativeAction.buildAccel cs1.resultAddr cs1.resultAddr cs1.updateAddr true,
       NativeAction.uavBarrier cs1.resultAddr]
    containers := setContainer s.containers c { cs1 with built := true } }

/-- The ordering checks at the end of the update handler, symmetric to
`buildOrderCheck`. -/
def updateOrderCheck (s : RecState) (c : Nat) : RecState × Option RecordError :=
  if s.lastBuildContainer.isSome then
    (s, some RecordError.updateAfterBuild)
  else
    match s.lastUpdateContainer with
    | some u =>
      if (s.containers u).level ≠ (s.containers c).level then
        (s, some RecordError.mixedLevelsUpdate)
      else
        ({ s with lastUpdateContainer := some c }, none)
    | none => ({ s with lastUpdateContainer := some c }, none)

/-- One iteration of the `RecordCommands` command loop restricted to the
acceleration-container commands.  The returned state holds all mutations the
handler performed even when it also returns a validation error, because the
native command list and the container objects are shared and already mutated
by the time the ordering checks run. -/
def recordRTCommand (s : RecState) : RTCommand → RecState × Option RecordError
  | RTCommand.build c => buildOrderCheck (buildMutate s c) c
  | RTCommand.update c => updateOrderCheck (updateMutate s c) c
  | RTCommand.copy src dst =>
    let srcMem := (s.containers src).resultAddr
    let dstMem := (s.containers dst).resultAddr
    ({ s with actions := s.actions ++ [NativeAction.copyAccel dstMem srcMem] }, none)

/-- The `RecordCommands` loop over the acceleration-container commands of one
command stream: commands are processed in order and processing aborts at the
first validation error (`DAWN_TRY`-style propagation), with all side effects
up to and including the failing handler retained. -/
def recordRTStream : List RTCommand → RecState → RecState × Option RecordError
  | [], s => (s, none)
  | cmd :: rest, s =>
    match recordRTCommand s cmd with
    | (s1, none) => recordRTStream rest s1
    | (s1, some e) => (s1, some e)

/-- The state at the top of `RecordCommands`: both ordering locals are null
and the native command list is empty. -/
def initRecState (containers : Nat → AccelContainer) : RecState :=
  { containers := containers
    lastBuildContainer := none
    lastUpdateContainer := none
    actions := [] }

/-! ## `BindGroupStateTracker::Apply` (CommandBufferD3D12.cpp)

Bind groups live in shader-visible descriptor heaps.  `PopulateViews` /
`PopulateSamplers` allocate the group's descriptor tables out of the current
heap and may fail gracefully when its capacity is exhausted (the code comment:
graceful failure "is the signal to change the bounded heaps"; re-populating
a group allocates again, which is why re-populating all groups "causes
duplicated allocations to occur on overflow").  Bitsets
(`mDirtyBindGroups`, `mBindGroupLayoutsMask`) are modelled as ascending lists
of group indices, matching `IterateBitSet`'s ascending iteration order. -/

/-- The descriptor demand of one `BindGroup`: how many view (CBV/UAV/SRV)
descriptors and how many sampler descriptors it populates. -/
structure BindGroupModel where
  viewCount : Nat
  samplerCount : Nat
deriving DecidableEq, Repr

/-- A `ShaderVisibleDescriptorAllocator`: the serial of the currently bound
shader-visible heap, the number of descriptor slots remaining in it, and the
capacity a freshly switched-in heap starts with. -/
structure AllocatorModel where
  heapSerial : Nat
  remaining : Nat
  heapCapacity : Nat
deriving DecidableEq, Repr

/-- One graceful descriptor allocation: succeeds (consuming slots) exactly
when the current heap has enough space left, otherwise fails and leaves the
allocator unchanged. -/
def populateDescriptors (count : Nat) (a : AllocatorModel) : Bool × AllocatorModel :=
  if count ≤ a.remaining then (true, { a with remaining := a.remaining - count })
  else (false, a)

/-- `AllocateAndSwitchShaderVisibleHeap`: rotate to a fresh heap. -/
def allocateAndSwitchShaderVisibleHeap (a : AllocatorModel) : AllocatorModel :=
  { heapSerial := a.heapSerial + 1, remaining := a.heapCapacity,
    heapCapacity := a.heapCapacity }

/-- The tracker state consulted by `Apply`: the bound groups, the two dirty
bitsets, the layout mask (all currently bound group slots), the two
allocators, and for each group the serial of the heap its view/sampler
descriptor tables currently live in (`none` when never populated). -/
structure BindGroupTrackerState where
  bindGroups : Nat → BindGroupModel
  dirtyBindGroups : List Nat
  dirtyBindGroupsObjectChangedOrIsDynamic : List Nat
  bindGroupLayoutsMask : List Nat
  viewAllocator : AllocatorModel
  samplerAllocator : AllocatorModel
  groupViewHeap : Nat → Option Nat
  groupSamplerHeap : Nat → Option Nat

/-- The loop-carried state of `Apply`'s population loops: the two
`didCreateBindGroup...` flags (overwritten on every iteration, exactly as in
the C++), the allocators, and the per-group heap locations. -/
structure PopulateLoopState where
  didCreateBindGroupViews : Bool
  didCreateBindGroupSamplers : Bool
  viewAllocator : AllocatorModel
  samplerAllocator : AllocatorModel
  groupViewHeap : Nat → Option Nat
  groupSamplerHeap : Nat → Option Nat

/-- One loop body: populate group `i`'s views and samplers, overwriting both
flags with this iteration's outcomes. -/
def populateGroup (bindGroups : Nat → BindGroupModel) (ls : PopulateLoopState)
    (i : Nat) : PopulateLoopState :=
  let va := populateDescriptors (bindGroups i).viewCount ls.viewAllocator
  let sa := populateDescriptors (bindGroups i).samplerCount ls.samplerAllocator
  { didCreateBindGroupViews := va.1
    didCreateBindGroupSamplers := sa.1
    viewAllocator := va.2
    samplerAllocator := sa.2
    groupViewHeap :=
      if va.1 then fun j => if j = i then some va.2.heapSerial else ls.groupViewHeap j
      else ls.groupViewHeap
    groupSamplerHeap :=
      if sa.1 then fun j => if j = i then some sa.2.heapSerial else ls.groupSamplerHeap j
      else ls.groupSamplerHeap }

/-- The first population loop of `Apply`, over `mDirtyBindGroups`: it breaks
out early only when BOTH the view and the sampler population of the current
group failed. -/
def populateDirtyLoop (bindGroups : Nat → BindGroupModel) (ls : PopulateLoopState) :
    List Nat → PopulateLoopState
  | [] => ls
  | i :: rest =>
    let ls1 := populateGroup bindGroups ls i
    if !ls1.didCreateBindGroupViews && !ls1.didCreateBindGroupSamplers then ls1
    else populateDirtyLoop bindGroups ls1 rest

/-- The `ASSERT`s on the re-population loop after a heap switch: the fresh
heap must be able to hold every bound group. -/
inductive BindApplyAssert where
  | repopulationFailed
deriving DecidableEq, Repr

/-- The second population loop of `Apply`, over `mBindGroupLayoutsMask` after
a heap switch; the C++ `ASSERT`s each population succeeds. -/
def repopulateAllLoop (bindGroups : Nat → BindGroupModel) (ls : PopulateLoopState) :
    List Nat → Except BindApplyAssert PopulateLoopState
  | [] => Except.ok ls
  | i :: rest =>
    let ls1 := populateGroup bindGroups ls i
    if ls1.didCreateBindGroupViews && ls1.didCreateBindGroupSamplers then
      repopulateAllLoop bindGroups ls1 rest
    else Except.error BindApplyAssert.repopulationFailed

/-- `BindGroupStateTracker::Apply` (minus the root-parameter binding and the
storage barriers, which no claim concerns).  The returned `Bool` records
whether `SetID3D12DescriptorHeaps` was re-invoked on the command list during
this `Apply` (it is, exactly on the heap-switch path, before the
re-population loop).  `DidApply()` clears both dirty bitsets at the end. -/
def bindGroupApply (t : BindGroupTrackerState) :
    Except BindApplyAssert (BindGroupTrackerState × Bool) :=
  let ls0 : PopulateLoopState :=
    { didCreateBindGroupViews := true
      didCreateBindGroupSamplers := true
      viewAllocator := t.viewAllocator
      samplerAllocator := t.samplerAllocator
      groupViewHeap := t.groupViewHeap
      groupSamplerHeap := t.groupSamplerHeap }
  let ls1 := populateDirtyLoop t.bindGroups ls0 t.dirtyBindGroups
  if !ls1.didCreateBindGroupViews || !ls1.didCreateBindGroupSamplers then do
    let va := if !ls1.didCreateBindGroupViews then
        allocateAndSwitchShaderVisibleHeap ls1.viewAllocator
      else ls1.viewAllocator
    let sa := if !ls1.didCreateBindGroupSamplers then
        allocateAndSwitchShaderVisibleHeap ls1.samplerAllocator
      else ls1.samplerAllocator
    -- mDirtyBindGroupsObjectChangedOrIsDynamic |= mBindGroupLayoutsMask;
    -- mDirtyBindGroups |= mBindGroupLayoutsMask;
    -- SetID3D12DescriptorHeaps(commandList);  -- before re-applying
    let ls2 := { ls1 with viewAllocator := va, samplerAllocator := sa }
    let ls3 ← repopulateAllLoop t.bindGroups ls2 t.bindGroupLayoutsMask
    Except.ok
      ({ t with
         viewAllocator := ls3.viewAllocator
         samplerAllocator := ls3.samplerAllocator
         groupViewHeap := ls3.groupViewHeap
         groupSamplerHeap := ls3.groupSamplerHeap
         dirtyBindGroups := []
         dirtyBindGroupsObjectChangedOrIsDynamic := [] }, true)
  else
    Except.ok
      ({ t with
         viewAllocator := ls1.viewAllocator
         samplerAllocator := ls1.samplerAllocator
         groupViewHeap := ls1.groupViewHeap
         groupSamplerHeap := ls1.groupSamplerHeap
         dirtyBindGroups := []
         dirtyBindGroupsObjectChangedOrIsDynamic := [] }, false)

/-! ## `VertexBufferTracker` (CommandBufferD3D12.cpp) -/

/-- `kMaxVertexBuffers`. -/
def kMaxVertexBuffers : Nat := 16

/-- `D3D12_VERTEX_BUFFER_VIEW`. -/
structure D3D12VertexBufferView where
  bufferLocation : Nat
  sizeInBytes : Nat
  strideInBytes : Nat
deriving DecidableEq, Repr

/-- The `RenderPipeline` facts the tracker consults: the object's identity
(C++ compares pipeline pointers), `GetVertexBufferSlotsUsed()`, and the
per-slot `arrayStride` of its vertex state. -/
structure RenderPipelineModel where
  id : Nat
  vertexBufferSlotsUsed : Nat → Bool
  arrayStride : Nat → Nat

/-- The tracker's fields. -/
structure VertexBufferTrackerState where
  lastAppliedRenderPipeline : Option Nat
  startSlot : Nat
  endSlot : Nat
  bufferViews : Nat → D3D12VertexBufferView

/-- A freshly constructed tracker (one is built per render pass). -/
def initVertexBufferTracker : VertexBufferTrackerState :=
  { lastAppliedRenderPipeline := none
    startSlot := kMaxVertexBuffers
    endSlot := 0
    bufferViews := fun _ =>
      { bufferLocation := 0, sizeInBytes := 0, strideInBytes := 0 } }

/-- `OnSetVertexBuffer`: widen the dirty range to the slot and store the
buffer GPU address and size (the stride is filled in from the pipeline at
`Apply` time). -/
def onSetVertexBuffer (t : VertexBufferTrackerState) (slot bufferVA offset size : Nat) :
    VertexBufferTrackerState :=
  { t with
    startSlot := min t.startSlot slot
    endSlot := max t.endSlot (slot + 1)
    bufferViews := fun j =>
      if j = slot then
        { bufferLocation := bufferVA + offset
          sizeInBytes := size
          strideInBytes := (t.bufferViews slot).strideInBytes }
      else t.bufferViews j }

/-- A native `IASetVertexBuffers` call: start slot, slot count, and the
buffer views passed (the contiguous sub-array starting at the start slot). -/
structure IASetVertexBuffersCall where
  startSlot : Nat
  count : Nat
  views : List D3D12VertexBufferView
deriving DecidableEq, Repr

/-- The ascending list of slots in `GetVertexBufferSlotsUsed()`
(`IterateBitSet` iterates a bitset in ascending index order). -/
def usedSlotsList (p : RenderPipelineModel) : List Nat :=
  (List.range kMaxVertexBuffers).filter p.vertexBufferSlotsUsed

/-- The stride refresh in `Apply`'s pipeline-changed loop: for each used slot
(ascending), set that view's `StrideInBytes` from the pipeline. -/
def applyStrides (p : RenderPipelineModel) (views : Nat → D3D12VertexBufferView) :
    List Nat → (Nat → D3D12VertexBufferView)
  | [] => views
  | slot :: rest =>
    applyStrides p
      (fun j =>
        if j = slot then
          { views slot with strideInBytes := p.arrayStride slot }
        else views j)
      rest

/-- `VertexBufferTracker::Apply`: when the bound pipeline changed, widen the
local dirty range over every slot the pipeline uses and refresh those slots'
strides (the C++ single loop updates the running min, the running max and the
stride of each used slot; it is rendered here as the three independent folds
over the same ascending slot list); then either return without a native call
(empty range, members untouched apart from the strides) or emit one
`IASetVertexBuffers` over the whole range and reset the dirty range. -/
def vertexBufferApply (t : VertexBufferTrackerState) (p : RenderPipelineModel) :
    VertexBufferTrackerState × List IASetVertexBuffersCall :=
  let lastApplied := if t.lastAppliedRenderPipeline ≠ some p.id then some p.id
    else t.lastAppliedRenderPipeline
  let startSlot := if t.lastAppliedRenderPipeline ≠ some p.id then
      (usedSlotsList p).foldl min t.startSlot
    else t.startSlot
  let endSlot := if t.lastAppliedRenderPipeline ≠ some p.id then
      (usedSlotsList p).foldl (fun e slot => max e (slot + 1)) t.endSlot
    else t.endSlot
  let views := if t.lastAppliedRenderPipeline ≠ some p.id then
      applyStrides p t.bufferViews (usedSlotsList p)
    else t.bufferViews
  if endSlot ≤ startSlot then
    ({ t with lastAppliedRenderPipeline := lastApplied, bufferViews := views }, [])
  else
    ({ lastAppliedRenderPipeline := lastApplied
       startSlot := kMaxVertexBuffers
       endSlot := 0
       bufferViews := views },
     [{ startSlot := startSlot
        count := endSlot - startSlot
        views := (List.range (endSlot - startSlot)).map (fun i => views (startSlot + i)) }])

/-- A `SetVertexBuffer` command as the tracker receives it. -/
structure SetVBCmd where
  slot : Nat
  bufferVA : Nat
  offset : Nat
  size : Nat
deriving DecidableEq, Repr

/-- Run a sequence of `SetVertexBuffer` commands on a fresh tracker. -/
def runSetVertexBuffers (ops : List SetVBCmd) : VertexBufferTrackerState :=
  ops.foldl (fun t o => onSetVertexBuffer t o.slot o.bufferVA o.offset o.size)
    initVertexBufferTracker

/-! ## Vulkan `RayTracingAccelerationContainer::Initialize`
(RayTracingAccelerationContainerVk.cpp) -/

/-- A `RayTracingAccelerationInstance` as `Initialize` reads it: its
geometry-container reference, which may be null. -/
structure AccelInstanceModel where
  geometryContainer : Option Nat
deriving DecidableEq, Repr

/-- The fields of `RayTracingAccelerationContainerDescriptor` that
`Initialize` branches on. -/
structure AccelContainerDescriptor where
  level : ContainerLevel
  geometries : List Nat
  instances : List AccelInstanceModel

/-- The device-side outcomes `Initialize` depends on: whether the three
ray-tracing entry points are available and whether the two Vk calls
succeed. -/
structure VkDeviceModel where
  hasCreateAccelerationStructure : Bool
  hasGetAccelerationStructureHandle : Bool
  hasGetAccelerationStructureMemoryRequirements : Bool
  createAccelerationStructureSucceeds : Bool
  getAccelerationStructureHandleSucceeds : Bool
deriving DecidableEq, Repr

/-- The `DAWN_VALIDATION_ERROR`s / propagated Vk failures of `Initialize`,
one constructor per distinct return site. -/
inductive VkInitError where
  | invalidCallCreateAccelerationStructure
  | invalidCallGetAccelerationStructureHandle
  | invalidCallGetAccelerationStructureMemoryRequirements
  | createAccelerationStructureFailed
  | getAccelerationStructureHandleFailed
  | invalidContainerReference
deriving DecidableEq, Repr

/-- The instance loop of `Initialize` for a top-level container: walk the
instance descriptors in order, reject the first null geometry-container
reference ("Invalid Reference to RayTracingAccelerationContainer"), and
collect the distinct referenced bottom-level containers in first-seen order
(`std::find` + `push_back`). -/
def collectGeometryContainers :
    List AccelInstanceModel → List Nat → Except VkInitError (List Nat)
  | [], acc => Except.ok acc
  | inst :: rest, acc =>
    match inst.geometryContainer with
    | none => Except.error VkInitError.invalidContainerReference
    | some c =>
      collectGeometryContainers rest (if acc.contains c then acc else acc ++ [c])

/-- `RayTracingAccelerationContainer::Initialize`: the geometry vector, flag
translation and `VkAccelerationStructureInfoNV` setup are pure data movement
(the `wgpu` level enum has exactly the two values `Bottom`/`Top`, so the
defensive invalid-level branch is unreachable and the structure setup cannot
fail); then the three entry-point checks, the two Vk calls, and for a
top-level container the instance loop followed by the scratch-sizing loop,
which queries each distinct referenced container's memory requirement sizes
and discards the results. -/
def rayTracingAccelerationContainerInitialize (dev : VkDeviceModel)
    (descriptor : AccelContainerDescriptor) : Except VkInitError Unit := do
  if !dev.hasCreateAccelerationStructure then
    throw VkInitError.invalidCallCreateAccelerationStructure
  if !dev.hasGetAccelerationStructureHandle then
    throw VkInitError.invalidCallGetAccelerationStructureHandle
  if !dev.hasGetAccelerationStructureMemoryRequirements then
    throw VkInitError.invalidCallGetAccelerationStructureMemoryRequirements
  if !dev.createAccelerationStructureSucceeds then
    throw VkInitError.createAccelerationStructureFailed
  if !dev.getAccelerationStructureHandleSucceeds then
    throw VkInitError.getAccelerationStructureHandleFailed
  if descriptor.level = ContainerLevel.top then
    let _ ← collectGeometryContainers descriptor.instances []
    pure ()
  else
    pure ()

/-- `RayTracingAccelerationContainer::Create`: construct the object and
`DAWN_TRY(Initialize(descriptor))`; on error no container is returned (the
`Unit` value stands for the released container pointer). -/
def rayTracingAccelerationContainerCreate (dev : VkDeviceModel)
    (descriptor : AccelContainerDescriptor) : Except VkInitError Unit :=
  rayTracingAccelerationContainerInitialize dev descriptor

/-! ## Frontend encoder lifecycle validation (modelled from the spec) -/

/-- The encoder-side acceleration-container commands. -/
inductive EncoderCommand where
  | build (container : Nat)
  | update (container : Nat)
deriving DecidableEq, Repr

/-- The encoder-side validation error. -/
inductive EncodeError where
  | updateBeforeBuild
deriving DecidableEq, Repr

/-- Modelled from the spec: the frontend `CommandEncoder` validation of
`UpdateRayTracingAccelerationContainer` is not among these sources (only its
backend consumer `CommandBuffer::RecordCommands` is, and that code assumes
already validated commands).  Per the spec, "`update(container)`: valid only
after at least one build" and "`update()` before any `build()` fails" with a
validation error.  `builtMap` carries each container's `IsBuilt()` flag;
a build command marks its container built, an update command is accepted
only when its container is already built. -/
def encodeRTCommand (builtMap : Nat → Bool) :
    EncoderCommand → Except EncodeError (Nat → Bool)
  | EncoderCommand.build c =>
    Except.ok (fun i => if i = c then true else builtMap i)
  | EncoderCommand.update c =>
    if builtMap c then Except.ok builtMap
    else Except.error EncodeError.updateBeforeBuild

/-- Encode a stream of acceleration-container commands, aborting at the first
validation error. -/
def encodeRTStream : List EncoderCommand → (Nat → Bool) → Except EncodeError (Nat → Bool)
  | [], m => Except.ok m
  | cmd :: rest, m => do
    let m1 ← encodeRTCommand m cmd
    encodeRTStream rest m1

/-! ## Theorems: copy region calculator (claims C4, C5, C9) -/

/-- A 4x4x1 non-compressed texture used to refute the depth part of the
extent-clamping claim. -/
def c4Texture : TextureModel :=
  { format := { isCompressed := false, blockByteSize := 4, blockWidth := 1 }
    virtualSize := fun _ => { width := 4, height := 4, depth := 1 }
    aspectMask := 1 }

/-- A copy at the origin of mip 0 of `c4Texture`. -/
def c4TextureCopy : TextureCopy :=
  { texture := c4Texture, mipLevel := 0, arrayLayer := 0
    origin := { x := 0, y := 0, z := 0 } }

/-- A requested copy size whose depth exceeds the virtual depth. -/
def c4CopySize : Extent3D := { width := 4, height := 4, depth := 5 }

/-- C4 (counterexample): on a non-compressed texture whose requested depth
exceeds the mip level's virtual depth, `ComputeTextureCopyExtent` neither
clamps the exceeding dimension nor fails: it returns the requested extent
unchanged.  This refutes the claim read over all three dimensions ("exactly
those dimensions whose origin plus requested size exceed the mip level's
virtual size are clamped down", "when a clamp is needed on a texture whose
format is not compressed, the function fails"). -/
theorem computeTextureCopyExtent_depth_counterexample :
    c4TextureCopy.texture.format.isCompressed = false
    ∧ c4TextureCopy.origin.z + c4CopySize.depth >
        (c4TextureCopy.texture.virtualSize c4TextureCopy.mipLevel).depth
    ∧ ComputeTextureCopyExtent c4TextureCopy c4CopySize = Except.ok c4CopySize := by
  refine ⟨rfl, by decide, rfl⟩

/-- C4 (amended): restricted to the width and height dimensions the claim
holds: for a block-compressed format, `ComputeTextureCopyExtent` clamps
exactly the dimensions among width and height whose origin plus requested
size exceed the mip level's virtual size (down to virtual size minus origin)
and leaves fitting dimensions unchanged; for a non-compressed format it fails
fatally exactly when a width or height clamp would be needed, and otherwise
returns the requested extent unchanged.  The depth dimension is never clamped
(claim C9). -/
theorem computeTextureCopyExtent_clamps_width_height (tc : TextureCopy) (cs : Extent3D) :
    (tc.texture.format.isCompressed = true →
      ComputeTextureCopyExtent tc cs = Except.ok
        { width :=
            if tc.origin.x + cs.width > (tc.texture.virtualSize tc.mipLevel).width then
              (tc.texture.virtualSize tc.mipLevel).width - tc.origin.x
            else cs.width
          height :=
            if tc.origin.y + cs.height > (tc.texture.virtualSize tc.mipLevel).height then
              (tc.texture.virtualSize tc.mipLevel).height - tc.origin.y
            else cs.height
          depth := cs.depth })
    ∧ (tc.texture.format.isCompressed = false →
        (ComputeTextureCopyExtent tc cs = Except.error CopyAssert.nonCompressedClamp ↔
          (tc.origin.x + cs.width > (tc.texture.virtualSize tc.mipLevel).width
           ∨ tc.origin.y + cs.height > (tc.texture.virtualSize tc.mipLevel).height)))
    ∧ (tc.texture.format.isCompressed = false →
        ¬ tc.origin.x + cs.width > (tc.texture.virtualSize tc.mipLevel).width →
        ¬ tc.origin.y + cs.height > (tc.texture.virtualSize tc.mipLevel).height →
        ComputeTextureCopyExtent tc cs = Except.ok cs) := by
  refine ⟨fun h => ?_, fun h => ?_, fun h hw hh => ?_⟩
  · simp only [ComputeTextureCopyExtent, h, if_true]
    split_ifs <;> rfl
  · simp only [ComputeTextureCopyExtent, h, Bool.false_eq_true, if_false]
    split_ifs <;> simp_all
  · simp only [ComputeTextureCopyExtent, h, Bool.false_eq_true, if_false,
      if_neg hw, if_neg hh]

/-- A 4x4x1 BC-style compressed texture for the C4 witness. -/
def c4wTexture : TextureModel :=
  { format := { isCompressed := true, blockByteSize := 8, blockWidth := 4 }
    virtualSize := fun _ => { width := 4, height := 4, depth := 1 }
    aspectMask := 1 }

/-- A copy at origin (2,3,0) of mip 0 of `c4wTexture`. -/
def c4wTextureCopy : TextureCopy :=
  { texture := c4wTexture, mipLevel := 0, arrayLayer := 0
    origin := { x := 2, y := 3, z := 0 } }

/-- Witness for `computeTextureCopyExtent_clamps_width_height`: on the
compressed texture, a 4x1x1 request at origin (2,3,0) has its width clamped
to 2 and its height left at 1. -/
theorem computeTextureCopyExtent_clamps_width_height_witness :
    c4wTextureCopy.texture.format.isCompressed = true
    ∧ ComputeTextureCopyExtent c4wTextureCopy { width := 4, height := 1, depth := 1 } =
        Except.ok { width := 2, height := 1, depth := 1 } := by
  have h :=
    (computeTextureCopyExtent_clamps_width_height c4wTextureCopy
      { width := 4, height := 1, depth := 1 }).1 rfl
  exact ⟨rfl, h.trans (congrArg Except.ok (by decide))⟩

/-- C5: for every buffer-image copy request, the returned native region's
`bufferRowLength` equals `bytesPerRow / blockByteSize * blockWidth` in the
destination texture's format, and when `bytesPerRow` is not an exact multiple
of `blockByteSize` the computation fails fatally (the `ASSERT`) instead of
returning a region. -/
theorem computeBufferImageCopyRegion_rowLength (bc : BufferCopy) (tc : TextureCopy)
    (cs : Extent3D) :
    (bc.bytesPerRow % tc.texture.format.blockByteSize ≠ 0 →
      ComputeBufferImageCopyRegion bc tc cs =
        Except.error CopyAssert.bytesPerRowNotBlockMultiple)
    ∧ (∀ r, ComputeBufferImageCopyRegion bc tc cs = Except.ok r →
        r.bufferRowLength =
          bc.bytesPerRow / tc.texture.format.blockByteSize *
            tc.texture.format.blockWidth) := by
  constructor
  · intro hmod
    simp only [ComputeBufferImageCopyRegion, if_pos hmod]
  · intro r hr
    simp only [ComputeBufferImageCopyRegion] at hr
    split at hr
    · exact absurd hr (by simp)
    · split at hr
      · exact absurd hr (by simp)
      · simp only [Except.ok.injEq] at hr
        subst hr
        rfl

/-- Witness for `computeBufferImageCopyRegion_rowLength`: a 256-byte row
stride on the 8-byte-per-block, 4-wide compressed format gives
`bufferRowLength = 128`, and a 255-byte stride trips the `ASSERT`. -/
theorem computeBufferImageCopyRegion_rowLength_witness :
    ((255 : Nat) % c4wTextureCopy.texture.format.blockByteSize ≠ 0 →
      ComputeBufferImageCopyRegion { offset := 0, bytesPerRow := 255, rowsPerImage := 4 }
        c4wTextureCopy { width := 4, height := 4, depth := 1 } =
        Except.error CopyAssert.bytesPerRowNotBlockMultiple)
    ∧ (∀ r, ComputeBufferImageCopyRegion { offset := 0, bytesPerRow := 256, rowsPerImage := 4 }
        c4wTextureCopy { width := 4, height := 4, depth := 1 } = Except.ok r →
        r.bufferRowLength = 128) :=
  ⟨(computeBufferImageCopyRegion_rowLength
      { offset := 0, bytesPerRow := 255, rowsPerImage := 4 } c4wTextureCopy
      { width := 4, height := 4, depth := 1 }).1,
   fun r hr =>
    ((computeBufferImageCopyRegion_rowLength
      { offset := 0, bytesPerRow := 256, rowsPerImage := 4 } c4wTextureCopy
      { width := 4, height := 4, depth := 1 }).2 r hr).trans (by decide)⟩

/-- C9: extent clamping applies only to width and height: whenever
`ComputeTextureCopyExtent` returns an extent its depth equals the requested
copy depth (even when origin.z plus the requested depth exceeds the virtual
depth), and whenever `ComputeBufferImageCopyRegion` returns a region its
`imageExtent.depth` is the requested copy depth (taken directly from
`copySize`, not from the clamped extent). -/
theorem copyExtent_depth_passthrough (bc : BufferCopy) (tc : TextureCopy) (cs : Extent3D) :
    (∀ e, ComputeTextureCopyExtent tc cs = Except.ok e → e.depth = cs.depth)
    ∧ (∀ r, ComputeBufferImageCopyRegion bc tc cs = Except.ok r →
        r.imageExtent.depth = cs.depth) := by
  constructor
  · intro e he
    simp only [ComputeTextureCopyExtent] at he
    split at he
    · exact absurd he (by simp)
    · split at he
      · exact absurd he (by simp)
      · simp only [Except.ok.injEq] at he
        subst he
        rfl
  · intro r hr
    simp only [ComputeBufferImageCopyRegion] at hr
    split at hr
    · exact absurd hr (by simp)
    · split at hr
      · exact absurd hr (by simp)
      · simp only [Except.ok.injEq] at hr
        subst hr
        rfl

/-- Witness for `copyExtent_depth_passthrough`, at an input whose requested
depth 5 exceeds the virtual depth 1: the returned extent and region both keep
depth 5. -/
theorem copyExtent_depth_passthrough_witness :
    (∀ e, ComputeTextureCopyExtent c4wTextureCopy { width := 1, height := 1, depth := 5 } =
        Except.ok e → e.depth = 5)
    ∧ (∀ r, ComputeBufferImageCopyRegion { offset := 0, bytesPerRow := 256, rowsPerImage := 4 }
        c4wTextureCopy { width := 1, height := 1, depth := 5 } = Except.ok r →
        r.imageExtent.depth = 5) :=
  ⟨(copyExtent_depth_passthrough { offset := 0, bytesPerRow := 256, rowsPerImage := 4 }
      c4wTextureCopy { width := 1, height := 1, depth := 5 }).1,
   (copyExtent_depth_passthrough { offset := 0, bytesPerRow := 256, rowsPerImage := 4 }
      c4wTextureCopy { width := 1, height := 1, depth := 5 }).2⟩

/-! ## Theorems: Vulkan top-level container construction (claim C8) -/

/-- If some instance in the list has a null geometry-container reference, the
instance loop rejects with the invalid-reference validation error, whatever
has been collected so far. -/
theorem collectGeometryContainers_error (l : List AccelInstanceModel) :
    ∀ acc, (∃ inst ∈ l, inst.geometryContainer = none) →
      collectGeometryContainers l acc =
        Except.error VkInitError.invalidContainerReference := by
  induction l with
  | nil =>
    intro acc h
    rcases h with ⟨inst, hmem, _⟩
    exact absurd hmem (List.not_mem_nil inst)
  | cons head tail ih =>
    intro acc h
    rcases h with ⟨inst, hmem, hnone⟩
    rcases List.mem_cons.mp hmem with heq | htail
    · subst heq
      simp only [collectGeometryContainers, hnone]
    · cases hhead : head.geometryContainer with
      | none => simp only [collectGeometryContainers, hhead]
      | some c =>
        simp only [collectGeometryContainers, hhead]
        exact ih _ ⟨inst, htail, hnone⟩

/-- If every instance in the list has a non-null geometry-container
reference, the instance loop succeeds, whatever has been collected so far. -/
theorem collectGeometryContainers_ok (l : List AccelInstanceModel) :
    ∀ acc, (∀ inst ∈ l, inst.geometryContainer ≠ none) →
      ∃ cs, collectGeometryContainers l acc = Except.ok cs := by
  induction l with
  | nil => exact fun acc _ => ⟨acc, rfl⟩
  | cons head tail ih =>
    intro acc h
    cases hhead : head.geometryContainer with
    | none => exact absurd hhead (h head (List.mem_cons_self head tail))
    | some c =>
      simp only [collectGeometryContainers, hhead]
      exact ih _ (fun inst hmem => h inst (List.mem_cons_of_mem head hmem))

/-- C8: for a top-level (instance-holding) acceleration container whose
device-side steps all succeed, construction fails with the invalid-reference
validation error (and returns no container) exactly when some instance
references a null bottom-level container; when every instance references a
non-null bottom-level container, construction succeeds. -/
theorem topLevelContainer_requires_instance_refs (dev : VkDeviceModel)
    (d : AccelContainerDescriptor)
    (hdev : dev.hasCreateAccelerationStructure = true
      ∧ dev.hasGetAccelerationStructureHandle = true
      ∧ dev.hasGetAccelerationStructureMemoryRequirements = true
      ∧ dev.createAccelerationStructureSucceeds = true
      ∧ dev.getAccelerationStructureHandleSucceeds = true)
    (htop : d.level = ContainerLevel.top) :
    ((∃ inst ∈ d.instances, inst.geometryContainer = none) →
      rayTracingAccelerationContainerCreate dev d =
        Except.error VkInitError.invalidContainerReference)
    ∧ ((∀ inst ∈ d.instances, inst.geometryContainer ≠ none) →
      rayTracingAccelerationContainerCreate dev d = Except.ok ()) := by
  obtain ⟨h1, h2, h3, h4, h5⟩ := hdev
  constructor
  · intro hnull
    have hc := collectGeometryContainers_error d.instances [] hnull
    simp [rayTracingAccelerationContainerCreate,
      rayTracingAccelerationContainerInitialize, h1, h2, h3, h4, h5, htop, hc]
  · intro hok
    obtain ⟨cs, hc⟩ := collectGeometryContainers_ok d.instances [] hok
    simp [rayTracingAccelerationContainerCreate,
      rayTracingAccelerationContainerInitialize, h1, h2, h3, h4, h5, htop, hc]

/-- A fully capable device for the C8 witness. -/
def c8Device : VkDeviceModel :=
  { hasCreateAccelerationStructure := true
    hasGetAccelerationStructureHandle := true
    hasGetAccelerationStructureMemoryRequirements := true
    createAccelerationStructureSucceeds := true
    getAccelerationStructureHandleSucceeds := true }

/-- A top-level descriptor with one null instance reference. -/
def c8BadDescriptor : AccelContainerDescriptor :=
  { level := ContainerLevel.top
    geometries := []
    instances := [{ geometryContainer := some 7 }, { geometryContainer := none }] }

/-- A top-level descriptor whose instances all reference container 7. -/
def c8GoodDescriptor : AccelContainerDescriptor :=
  { level := ContainerLevel.top
    geometries := []
    instances := [{ geometryContainer := some 7 }, { geometryContainer := some 7 }] }

/-- Witness for `topLevelContainer_requires_instance_refs`: the null
reference in `c8BadDescriptor` is rejected and `c8GoodDescriptor` is
accepted. -/
theorem topLevelContainer_requires_instance_refs_witness :
    rayTracingAccelerationContainerCreate c8Device c8BadDescriptor =
        Except.error VkInitError.invalidContainerReference
    ∧ rayTracingAccelerationContainerCreate c8Device c8GoodDescriptor = Except.ok () :=
  ⟨(topLevelContainer_requires_instance_refs c8Device c8BadDescriptor
      ⟨rfl, rfl, rfl, rfl, rfl⟩ rfl).1
      ⟨{ geometryContainer := none }, by decide, rfl⟩,
   (topLevelContainer_requires_instance_refs c8Device c8GoodDescriptor
      ⟨rfl, rfl, rfl, rfl, rfl⟩ rfl).2 (by decide)⟩

/-! ## Theorems: encoder-side update-before-build validation (claim C2) -/

/-- If the stream encoded from an all-unbuilt initial state is accepted, then
every accepted update of a container is preceded by a build of that same
container (generalized over the initial built map). -/
theorem encodeRTStream_update_preceded (cmds : List EncoderCommand) :
    ∀ (m0 : Nat → Bool) (j c : Nat),
      (∃ m, encodeRTStream cmds m0 = Except.ok m) →
      cmds.get? j = some (EncoderCommand.update c) →
      m0 c = true ∨ ∃ i, i < j ∧ cmds.get? i = some (EncoderCommand.build c) := by
  induction cmds with
  | nil =>
    intro m0 j c _ hj
    simp at hj
  | cons head tail ih =>
    intro m0 j c hok hj
    rcases hok with ⟨m, hm⟩
    cases head with
    | build b =>
      simp only [encodeRTStream, encodeRTCommand, bind, Except.bind] at hm
      cases j with
      | zero => simp at hj
      | succ k =>
        simp only [List.get?_cons_succ] at hj
        rcases ih _ k c ⟨m, hm⟩ hj with hbuilt | ⟨i, hik, hbi⟩
        · by_cases hbc : b = c
          · exact Or.inr ⟨0, Nat.succ_pos k, by simp [hbc]⟩
          · left
            simpa [Ne.symm hbc] using hbuilt
        · exact Or.inr ⟨i + 1, Nat.succ_lt_succ hik, by simpa using hbi⟩
    | update u =>
      simp only [encodeRTStream, encodeRTCommand] at hm
      by_cases hu : m0 u = true
      · simp only [hu, if_true, bind, Except.bind] at hm
        cases j with
        | zero =>
          simp only [List.get?_cons_zero, Option.some.injEq,
            EncoderCommand.update.injEq] at hj
          subst hj
          exact Or.inl hu
        | succ k =>
          simp only [List.get?_cons_succ] at hj
          rcases ih _ k c ⟨m, hm⟩ hj with hbuilt | ⟨i, hik, hbi⟩
          · exact Or.inl hbuilt
          · exact Or.inr ⟨i + 1, Nat.succ_lt_succ hik, by simpa using hbi⟩
      · simp only [Bool.not_eq_true] at hu
        simp [hu, bind, Except.bind] at hm

/-- C2: an update command on a container that has never been built
(`IsBuilt()` false) is rejected by the encoder-side validation with a
validation error, and in any accepted command stream starting from all-unbuilt
containers every update of a container is preceded by at least one build of
that container. -/
theorem encoderUpdate_requires_priorBuild
    (m : Nat → Bool) (c : Nat) (cmds : List EncoderCommand) (j u : Nat) :
    (m c = false →
      encodeRTCommand m (EncoderCommand.update c) =
        Except.error EncodeError.updateBeforeBuild)
    ∧ ((∃ mf, encodeRTStream cmds (fun _ => false) = Except.ok mf) →
      cmds.get? j = some (EncoderCommand.update u) →
      ∃ i, i < j ∧ cmds.get? i = some (EncoderCommand.build u)) := by
  constructor
  · intro hfalse
    simp [encodeRTCommand, hfalse]
  · intro hok hj
    rcases encodeRTStream_update_preceded cmds (fun _ => false) j u hok hj with h | h
    · simp at h
    · exact h

/-- Witness for `encoderUpdate_requires_priorBuild`: with container 0 unbuilt
an update is rejected, and in the accepted stream build-then-update the update
at position 1 is preceded by the build at position 0. -/
theorem encoderUpdate_requires_priorBuild_witness :
    (encodeRTCommand (fun _ => false) (EncoderCommand.update 0) =
      Except.error EncodeError.updateBeforeBuild)
    ∧ ∃ i, i < 1 ∧
        [EncoderCommand.build 0, EncoderCommand.update 0].get? i =
          some (EncoderCommand.build 0) :=
  ⟨(encoderUpdate_requires_priorBuild (fun _ => false) 0
      [EncoderCommand.build 0, EncoderCommand.update 0] 1 0).1 rfl,
   (encoderUpdate_requires_priorBuild (fun _ => false) 0
      [EncoderCommand.build 0, EncoderCommand.update 0] 1 0).2
      ⟨fun i => if i = 0 then true else false, rfl⟩ rfl⟩

/-! ## Theorems: non-atomic rejection in `RecordCommands` (claim C10) -/

/-- Two fresh bottom-level containers with distinct memory addresses. -/
def c10Containers : Nat → AccelContainer := fun i =>
  { built := false
    updated := false
    hasBuildScratch := true
    level := ContainerLevel.bottom
    resultAddr := 100 + i
    buildAddr := 200 + i
    updateAddr := 300 + i }

/-- C10: rejection of a mis-ordered stream is not atomic.  Recording
`build 0` then `update 1` fails with the build/update-separation validation
error, yet by then the rejected update command has already recorded its
native perform-update build call and its result-memory barrier on the command
list, and has already moved container 1 to the built state. -/
theorem recordRTStream_rejection_not_atomic :
    (recordRTStream [RTCommand.build 0, RTCommand.update 1]
      (initRecState c10Containers)).2 = some RecordError.updateAfterBuild
    ∧ ((recordRTStream [RTCommand.build 0, RTCommand.update 1]
      (initRecState c10Containers)).1.containers 1).built = true
    ∧ (recordRTStream [RTCommand.build 0, RTCommand.update 1]
      (initRecState c10Containers)).1.actions =
      [NativeAction.buildAccel 0 100 200 false,
       NativeAction.uavBarrier 100,
       NativeAction.buildAccel 101 101 301 true,
       NativeAction.uavBarrier 101] := by
  refine ⟨rfl, rfl, rfl⟩

/-! ## Theorems: missed exhaustion signal in `BindGroupStateTracker::Apply`
(claim C3) -/

/-- Group 0 needs three view descriptors, group 1 needs one. -/
def c3BindGroups : Nat → BindGroupModel := fun i =>
  if i = 0 then { viewCount := 3, samplerCount := 1 }
  else { viewCount := 1, samplerCount := 1 }

/-- Tracker state with groups 0 and 1 bound and dirty, never yet populated,
and only two view descriptors left in the current view heap: populating group
0's views fails, populating group 1's views succeeds. -/
def c3Tracker : BindGroupTrackerState :=
  { bindGroups := c3BindGroups
    dirtyBindGroups := [0, 1]
    dirtyBindGroupsObjectChangedOrIsDynamic := [0, 1]
    bindGroupLayoutsMask := [0, 1]
    viewAllocator := { heapSerial := 0, remaining := 2, heapCapacity := 2 }
    samplerAllocator := { heapSerial := 0, remaining := 16, heapCapacity := 16 }
    groupViewHeap := fun _ => none
    groupSamplerHeap := fun _ => none }

/-- C3: the `didCreateBindGroup...` flags are overwritten on every iteration
of the population loop and the loop breaks only when both fail, so a
capacity-exhaustion failure on a non-final dirty group is forgotten when a
later group succeeds.  At `c3Tracker`, group 0's view population fails for
exhaustion, yet `Apply` returns success having switched no heap
(serial still 0), re-bound no descriptor heaps (the `false`), left group 0's
view table unpopulated (`none`), and cleared the dirty set — contradicting
the claimed (and intended, per the code's own comment) rotate-and-repopulate
response to any population failure. -/
theorem bindGroupApply_missed_exhaustion :
    (populateDescriptors ((c3Tracker.bindGroups 0).viewCount) c3Tracker.viewAllocator).1 = false
    ∧ Except.map
        (fun r => (r.2, r.1.viewAllocator.heapSerial, r.1.groupViewHeap 0, r.1.dirtyBindGroups))
        (bindGroupApply c3Tracker) =
      Except.ok (false, 0, none, []) := by
  refine ⟨rfl, rfl⟩

/-! ## Theorems: build/update ordering validation in `RecordCommands`
(claim C1) -/

/-- The build ordering check only touches the `lastBuildContainer` local. -/
theorem buildOrderCheck_preserves (s : RecState) (c : Nat) :
    ((buildOrderCheck s c).1).containers = s.containers
    ∧ ((buildOrderCheck s c).1).actions = s.actions
    ∧ ((buildOrderCheck s c).1).lastUpdateContainer = s.lastUpdateContainer := by
  unfold buildOrderCheck
  split
  · exact ⟨rfl, rfl, rfl⟩
  · split
    · split
      · exact ⟨rfl, rfl, rfl⟩
      · exact ⟨rfl, rfl, rfl⟩
    · exact ⟨rfl, rfl, rfl⟩

/-- The update ordering check only touches the `lastUpdateContainer` local. -/
theorem updateOrderCheck_preserves (s : RecState) (c : Nat) :
    ((updateOrderCheck s c).1).containers = s.containers
    ∧ ((updateOrderCheck s c).1).actions = s.actions
    ∧ ((updateOrderCheck s c).1).lastBuildContainer = s.lastBuildContainer := by
  unfold updateOrderCheck
  split
  · exact ⟨rfl, rfl, rfl⟩
  · split
    · split
      · exact ⟨rfl, rfl, rfl⟩
      · exact ⟨rfl, rfl, rfl⟩
    · exact ⟨rfl, rfl, rfl⟩

/-- Success characterization of the build ordering check: no update has been
recorded, any previous build has the same container level, and afterwards
`lastBuildContainer` points at this build's container. -/
theorem buildOrderCheck_ok (s : RecState) (c : Nat) (s' : RecState)
    (h : buildOrderCheck s c = (s', none)) :
    s.lastUpdateContainer = none
    ∧ s' = { s with lastBuildContainer := some c }
    ∧ (∀ b, s.lastBuildContainer = some b →
        (s.containers b).level = (s.containers c).level) := by
  unfold buildOrderCheck at h
  split at h
  · exact absurd h (by simp)
  · next hu =>
    have hun : s.lastUpdateContainer = none := Option.not_isSome_iff_eq_none.mp hu
    split at h
    · next b hb =>
      split at h
      · exact absurd h (by simp)
      · next hlev =>
        refine ⟨hun, (Prod.mk.injEq _ _ _ _).mp h |>.1.symm, ?_⟩
        intro b' hb'
        rw [hb] at hb'
        cases hb'
        exact not_ne_iff.mp hlev
    · next hb =>
      refine ⟨hun, (Prod.mk.injEq _ _ _ _).mp h |>.1.symm, ?_⟩
      intro b' hb'
      rw [hb] at hb'
      cases hb'

/-- Success characterization of the update ordering check, symmetric to
`buildOrderCheck_ok`. -/
theorem updateOrderCheck_ok (s : RecState) (c : Nat) (s' : RecState)
    (h : updateOrderCheck s c = (s', none)) :
    s.lastBuildContainer = none
    ∧ s' = { s with lastUpdateContainer := some c }
    ∧ (∀ u, s.lastUpdateContainer = some u →
        (s.containers u).level = (s.containers c).level) := by
  unfold updateOrderCheck at h
  split at h
  · exact absurd h (by simp)
  · next hb =>
    have hbn : s.lastBuildContainer = none := Option.not_isSome_iff_eq_none.mp hb
    split at h
    · next u hu =>
      split at h
      · exact absurd h (by simp)
      · next hlev =>
        refine ⟨hbn, (Prod.mk.injEq _ _ _ _).mp h |>.1.symm, ?_⟩
        intro u' hu'
        rw [hu] at hu'
        cases hu'
        exact not_ne_iff.mp hlev
    · next hu =>
      refine ⟨hbn, (Prod.mk.injEq _ _ _ _).mp h |>.1.symm, ?_⟩
      intro u' hu'
      rw [hu] at hu'
      cases hu'

/-- The build handler's pre-check mutations do not move any container between
levels (only the `built` flag changes), and leave the two ordering locals
untouched. -/
theorem buildMutate_preserves (s : RecState) (c x : Nat) :
    ((buildMutate s c).containers x).level = (s.containers x).level
    ∧ (buildMutate s c).lastBuildContainer = s.lastBuildContainer
    ∧ (buildMutate s c).lastUpdateContainer = s.lastUpdateContainer := by
  refine ⟨?_, rfl, rfl⟩
  unfold buildMutate setContainer
  by_cases h : x = c <;> simp [h]

/-- The update handler's pre-check mutations do not move any container
between levels and leave the two ordering locals untouched. -/
theorem updateMutate_preserves (s : RecState) (c x : Nat) :
    ((updateMutate s c).containers x).level = (s.containers x).level
    ∧ (updateMutate s c).lastBuildContainer = s.lastBuildContainer
    ∧ (updateMutate s c).lastUpdateContainer = s.lastUpdateContainer := by
  refine ⟨?_, rfl, rfl⟩
  unfold updateMutate setContainer
  by_cases h : x = c <;> by_cases hf : (s.containers c).built && !(s.containers c).updated <;>
    simp [h, hf]

/-- No native command list in this stream contains a build immediately
followed (anywhere later) by an update: helper predicate for C1. -/
def NoBuildThenUpdate (cmds : List RTCommand) : Prop :=
  ∀ i j ci cj, i < j → cmds.get? i = some (RTCommand.build ci) →
    cmds.get? j = some (RTCommand.update cj) → False

/-- Helper predicate for C1: no update anywhere before a build. -/
def NoUpdateThenBuild (cmds : List RTCommand) : Prop :=
  ∀ i j ci cj, i < j → cmds.get? i = some (RTCommand.update ci) →
    cmds.get? j = some (RTCommand.build cj) → False

/-- Helper predicate for C1: all build commands target containers of one
level. -/
def BuildsSameLevel (levelOf : Nat → ContainerLevel) (cmds : List RTCommand) : Prop :=
  ∀ i j ci cj, cmds.get? i = some (RTCommand.build ci) →
    cmds.get? j = some (RTCommand.build cj) → levelOf ci = levelOf cj

/-- Helper predicate for C1: all update commands target containers of one
level. -/
def UpdatesSameLevel (levelOf : Nat → ContainerLevel) (cmds : List RTCommand) : Prop :=
  ∀ i j ci cj, cmds.get? i = some (RTCommand.update ci) →
    cmds.get? j = some (RTCommand.update cj) → levelOf ci = levelOf cj

/-- Decompose a successful run of the stream loop into a successful first
step and a successful rest. -/
theorem recordRTStream_cons_ok (cmd : RTCommand) (rest : List RTCommand)
    (s s' : RecState) (h : recordRTStream (cmd :: rest) s = (s', none)) :
    ∃ s1, recordRTCommand s cmd = (s1, none) ∧ recordRTStream rest s1 = (s', none) := by
  rcases h1 : recordRTCommand s cmd with ⟨s1, err⟩
  cases err with
  | none =>
    refine ⟨s1, rfl, ?_⟩
    simpa only [recordRTStream, h1] using h
  | some e =>
    simp only [recordRTStream, h1] at h
    exact absurd ((Prod.mk.injEq _ _ _ _).mp h).2 (by simp)

/-- If one pass of `RecordCommands` over an acceleration-container command
stream finishes without a validation error, then: once a build has been
recorded no update occurs later in the stream (and symmetrically), all builds
target containers of one level, all updates target containers of one level,
and the stream also respects whatever `lastBuildContainer` /
`lastUpdateContainer` state it started from. -/
theorem recordRTStream_ok_invariants (cmds : List RTCommand) :
    ∀ s s' : RecState, recordRTStream cmds s = (s', none) →
      (s.lastBuildContainer.isSome →
          ∀ j cj, cmds.get? j = some (RTCommand.update cj) → False)
      ∧ (s.lastUpdateContainer.isSome →
          ∀ j cj, cmds.get? j = some (RTCommand.build cj) → False)
      ∧ (∀ b, s.lastBuildContainer = some b →
          ∀ j cj, cmds.get? j = some (RTCommand.build cj) →
            (s.containers cj).level = (s.containers b).level)
      ∧ (∀ u, s.lastUpdateContainer = some u →
          ∀ j cj, cmds.get? j = some (RTCommand.update cj) →
            (s.containers cj).level = (s.containers u).level)
      ∧ NoBuildThenUpdate cmds
      ∧ NoUpdateThenBuild cmds
      ∧ BuildsSameLevel (fun x => (s.containers x).level) cmds
      ∧ UpdatesSameLevel (fun x => (s.containers x).level) cmds := by
  induction cmds with
  | nil =>
    intro s s' _
    refine ⟨fun _ j cj hj => by simp at hj, fun _ j cj hj => by simp at hj,
      fun b _ j cj hj => by simp at hj, fun u _ j cj hj => by simp at hj,
      fun i j ci cj _ _ hj => by simp at hj, fun i j ci cj _ _ hj => by simp at hj,
      fun i j ci cj hi _ => by simp at hi, fun i j ci cj hi _ => by simp at hi⟩
  | cons cmd rest ih =>
    intro s s' h
    obtain ⟨s1, h1, hrest⟩ := recordRTStream_cons_ok cmd rest s s' h
    obtain ⟨ih1, ih2, ih3, ih4, ih5, ih6, ih7, ih8⟩ := ih s1 s' hrest
    cases cmd with
    | build c =>
      simp only [recordRTCommand] at h1
      obtain ⟨hmu, hs1eq, hprev⟩ := buildOrderCheck_ok _ c s1 h1
      have hsu : s.lastUpdateContainer = none :=
        (buildMutate_preserves s c 0).2.2.symm.trans hmu
      have hs1b : s1.lastBuildContainer = some c := by rw [hs1eq]
      have hlev : ∀ x, (s1.containers x).level = (s.containers x).level := by
        intro x
        rw [hs1eq]
        exact (buildMutate_preserves s c x).1
      have hprev' : ∀ b, s.lastBuildContainer = some b →
          (s.containers b).level = (s.containers c).level := by
        intro b hb
        have := hprev b ((buildMutate_preserves s c 0).2.1.trans hb)
        rw [(buildMutate_preserves s c b).1, (buildMutate_preserves s c c).1] at this
        exact this
      refine ⟨?_, ?_, ?_, ?_, ?_, ?_, ?_, ?_⟩
      · intro _ j cj hj
        cases j with
        | zero => simp at hj
        | succ k => exact ih1 (by simp [hs1b]) k cj hj
      · intro hus
        rw [hsu] at hus
        simp at hus
      · intro b hb j cj hj
        cases j with
        | zero =>
          simp only [List.get?_cons_zero, Option.some.injEq, RTCommand.build.injEq] at hj
          subst hj
          exact (hprev' b hb).symm
        | succ k =>
          have := ih3 c hs1b k cj hj
          rw [hlev cj, hlev c] at this
          exact this.trans (hprev' b hb).symm
      · intro u hu
        rw [hsu] at hu
        cases hu
      · intro i j ci cj hij hbi huj
        cases j with
        | zero => exact Nat.not_lt_zero i hij
        | succ k => exact ih1 (by simp [hs1b]) k cj huj
      · intro i j ci cj hij hui hbj
        cases i with
        | zero => simp at hui
        | succ i' =>
          cases j with
          | zero => exact Nat.not_lt_zero _ hij
          | succ k =>
            exact ih6 i' k ci cj (Nat.lt_of_succ_lt_succ hij) hui hbj
      · intro i j ci cj hbi hbj
        show (s.containers ci).level = (s.containers cj).level
        cases i with
        | zero =>
          have hci : ci = c := by
            simp only [List.get?_cons_zero, Option.some.injEq, RTCommand.build.injEq] at hbi
            exact hbi.symm
          cases j with
          | zero =>
            have hcj : cj = c := by
              simp only [List.get?_cons_zero, Option.some.injEq, RTCommand.build.injEq] at hbj
              exact hbj.symm
            rw [hci, hcj]
          | succ k =>
            have h2 := ih3 c hs1b k cj hbj
            rw [hlev cj, hlev c] at h2
            rw [hci]
            exact h2.symm
        | succ i' =>
          cases j with
          | zero =>
            have hcj : cj = c := by
              simp only [List.get?_cons_zero, Option.some.injEq, RTCommand.build.injEq] at hbj
              exact hbj.symm
            have h2 := ih3 c hs1b i' ci hbi
            rw [hlev ci, hlev c] at h2
            rw [hcj]
            exact h2
          | succ k =>
            have h2 := ih7 i' k ci cj hbi hbj
            simpa only [hlev] using h2
      · intro i j ci cj hui huj
        show (s.containers ci).level = (s.containers cj).level
        cases i with
        | zero => simp at hui
        | succ i' =>
          cases j with
          | zero => simp at huj
          | succ k =>
            have h2 := ih8 i' k ci cj hui huj
            simpa only [hlev] using h2
    | update c =>
      simp only [recordRTCommand] at h1
      obtain ⟨hmb, hs1eq, hprev⟩ := updateOrderCheck_ok _ c s1 h1
      have hsb : s.lastBuildContainer = none :=
        (updateMutate_preserves s c 0).2.1.symm.trans hmb
      have hs1u : s1.lastUpdateContainer = some c := by rw [hs1eq]
      have hlev : ∀ x, (s1.containers x).level = (s.containers x).level := by
        intro x
        rw [hs1eq]
        exact (updateMutate_preserves s c x).1
      have hprev' : ∀ u, s.lastUpdateContainer = some u →
          (s.containers u).level = (s.containers c).level := by
        intro u hu
        have := hprev u ((updateMutate_preserves s c 0).2.2.trans hu)
        rw [(updateMutate_preserves s c u).1, (updateMutate_preserves s c c).1] at this
        exact this
      refine ⟨?_, ?_, ?_, ?_, ?_, ?_, ?_, ?_⟩
      · intro hbs
        rw [hsb] at hbs
        simp at hbs
      · intro _ j cj hj
        cases j with
        | zero => simp at hj
        | succ k => exact ih2 (by simp [hs1u]) k cj hj
      · intro b hb
        rw [hsb] at hb
        cases hb
      · intro u hu j cj hj
        cases j with
        | zero =>
          simp only [List.get?_cons_zero, Option.some.injEq, RTCommand.update.injEq] at hj
          subst hj
          exact (hprev' u hu).symm
        | succ k =>
          have := ih4 c hs1u k cj hj
          rw [hlev cj, hlev c] at this
          exact this.trans (hprev' u hu).symm
      · intro i j ci cj hij hbi huj
        cases i with
        | zero => simp at hbi
        | succ i' =>
          cases j with
          | zero => exact Nat.not_lt_zero _ hij
          | succ k =>
            exact ih5 i' k ci cj (Nat.lt_of_succ_lt_succ hij) hbi huj
      · intro i j ci cj hij hui hbj
        cases j with
        | zero => exact Nat.not_lt_zero i hij
        | succ k => exact ih2 (by simp [hs1u]) k cj hbj
      · intro i j ci cj hbi hbj
        show (s.containers ci).level = (s.containers cj).level
        cases i with
        | zero => simp at hbi
        | succ i' =>
          cases j with
          | zero => simp at hbj
          | succ k =>
            have h2 := ih7 i' k ci cj hbi hbj
            simpa only [hlev] using h2
      · intro i j ci cj hui huj
        show (s.containers ci).level = (s.containers cj).level
        cases i with
        | zero =>
          have hci : ci = c := by
            simp only [List.get?_cons_zero, Option.some.injEq, RTCommand.update.injEq] at hui
            exact hui.symm
          cases j with
          | zero =>
            have hcj : cj = c := by
              simp only [List.get?_cons_zero, Option.some.injEq, RTCommand.update.injEq] at huj
              exact huj.symm
            rw [hci, hcj]
          | succ k =>
            have h2 := ih4 c hs1u k cj huj
            rw [hlev cj, hlev c] at h2
            rw [hci]
            exact h2.symm
        | succ i' =>
          cases j with
          | zero =>
            have hcj : cj = c := by
              simp only [List.get?_cons_zero, Option.some.injEq, RTCommand.update.injEq] at huj
              exact huj.symm
            have h2 := ih4 c hs1u i' ci hui
            rw [hlev ci, hlev c] at h2
            rw [hcj]
            exact h2
          | succ k =>
            have h2 := ih8 i' k ci cj hui huj
            simpa only [hlev] using h2
    | copy a b =>
      simp only [recordRTCommand] at h1
      have hs1eq : s1 = { s with
          actions := s.actions ++
            [NativeAction.copyAccel (s.containers b).resultAddr
              (s.containers a).resultAddr] } :=
        ((Prod.mk.injEq _ _ _ _).mp h1).1.symm
      have hs1b : s1.lastBuildContainer = s.lastBuildContainer := by rw [hs1eq]
      have hs1u : s1.lastUpdateContainer = s.lastUpdateContainer := by rw [hs1eq]
      have hcont : s1.containers = s.containers := by rw [hs1eq]
      refine ⟨?_, ?_, ?_, ?_, ?_, ?_, ?_, ?_⟩
      · intro hbs j cj hj
        cases j with
        | zero => simp at hj
        | succ k => exact ih1 (by rw [hs1b]; exact hbs) k cj hj
      · intro hus j cj hj
        cases j with
        | zero => simp at hj
        | succ k => exact ih2 (by rw [hs1u]; exact hus) k cj hj
      · intro b' hb j cj hj
        cases j with
        | zero => simp at hj
        | succ k =>
          have := ih3 b' (by rw [hs1b]; exact hb) k cj hj
          rw [hcont] at this
          exact this
      · intro u hu j cj hj
        cases j with
        | zero => simp at hj
        | succ k =>
          have := ih4 u (by rw [hs1u]; exact hu) k cj hj
          rw [hcont] at this
          exact this
      · intro i j ci cj hij hbi huj
        cases i with
        | zero => simp at hbi
        | succ i' =>
          cases j with
          | zero => exact Nat.not_lt_zero _ hij
          | succ k =>
            exact ih5 i' k ci cj (Nat.lt_of_succ_lt_succ hij) hbi huj
      · intro i j ci cj hij hui hbj
        cases i with
        | zero => simp at hui
        | succ i' =>
          cases j with
          | zero => exact Nat.not_lt_zero _ hij
          | succ k =>
            exact ih6 i' k ci cj (Nat.lt_of_succ_lt_succ hij) hui hbj
      · intro i j ci cj hbi hbj
        show (s.containers ci).level = (s.containers cj).level
        cases i with
        | zero => simp at hbi
        | succ i' =>
          cases j with
          | zero => simp at hbj
          | succ k =>
            have h2 := ih7 i' k ci cj hbi hbj
            simpa only [hcont] using h2
      · intro i j ci cj hui huj
        show (s.containers ci).level = (s.containers cj).level
        cases i with
        | zero => simp at hui
        | succ i' =>
          cases j with
          | zero => simp at huj
          | succ k =>
            have h2 := ih8 i' k ci cj hui huj
            simpa only [hcont] using h2

/-- C1: while recording one command stream, a build followed by a later
update (or an update followed by a later build), and likewise two builds (or
two updates) targeting containers of different levels, make `RecordCommands`
return a validation error: no such stream completes successfully, because at
the first such pair the later command's ordering check rejects it and aborts
the stream. -/
theorem recordRTStream_rejects_misordered (cmds : List RTCommand)
    (c0 : Nat → AccelContainer)
    (hbad :
      (∃ i j ci cj, i < j ∧ cmds.get? i = some (RTCommand.build ci)
        ∧ cmds.get? j = some (RTCommand.update cj))
      ∨ (∃ i j ci cj, i < j ∧ cmds.get? i = some (RTCommand.update ci)
        ∧ cmds.get? j = some (RTCommand.build cj))
      ∨ (∃ i j ci cj, cmds.get? i = some (RTCommand.build ci)
        ∧ cmds.get? j = some (RTCommand.build cj) ∧ (c0 ci).level ≠ (c0 cj).level)
      ∨ (∃ i j ci cj, cmds.get? i = some (RTCommand.update ci)
        ∧ cmds.get? j = some (RTCommand.update cj) ∧ (c0 ci).level ≠ (c0 cj).level)) :
    ((recordRTStream cmds (initRecState c0)).2).isSome := by
  cases herr : (recordRTStream cmds (initRecState c0)).2 with
  | some e => rfl
  | none =>
    exfalso
    have hrun : recordRTStream cmds (initRecState c0) =
        ((recordRTStream cmds (initRecState c0)).1, none) := by
      rw [← herr]
    obtain ⟨_, _, _, _, h5, h6, h7, h8⟩ :=
      recordRTStream_ok_invariants cmds (initRecState c0)
        ((recordRTStream cmds (initRecState c0)).1) hrun
    rcases hbad with ⟨i, j, ci, cj, hij, hi, hj⟩ | ⟨i, j, ci, cj, hij, hi, hj⟩ |
      ⟨i, j, ci, cj, hi, hj, hne⟩ | ⟨i, j, ci, cj, hi, hj, hne⟩
    · exact h5 i j ci cj hij hi hj
    · exact h6 i j ci cj hij hi hj
    · exact hne (h7 i j ci cj hi hj)
    · exact hne (h8 i j ci cj hi hj)

/-- Witness for `recordRTStream_rejects_misordered`: the stream build 0 then
update 1 over the `c10Containers` map is rejected. -/
theorem recordRTStream_rejects_misordered_witness :
    ((recordRTStream [RTCommand.build 0, RTCommand.update 1]
      (initRecState c10Containers)).2).isSome :=
  recordRTStream_rejects_misordered [RTCommand.build 0, RTCommand.update 1]
    c10Containers (Or.inl ⟨0, 1, 0, 1, Nat.zero_lt_one, rfl, rfl⟩)

/-! ## Theorems: update commands and build-scratch release (claim C7) -/

/-- Once a container is in the updated state, further update commands on it
never emit a `DestroyScratchBuildMemory`, and it stays updated. -/
theorem recordRTStream_updates_no_destroy (c : Nat) :
    ∀ (n : Nat) (s : RecState), (s.containers c).updated = true →
      (((recordRTStream (List.replicate n (RTCommand.update c)) s).1).actions).count
          (NativeAction.destroyScratchBuild c) =
        (s.actions).count (NativeAction.destroyScratchBuild c) := by
  intro n
  induction n with
  | zero => intro s _; rfl
  | succ m ihm =>
    intro s hupd
    rw [List.replicate_succ]
    rcases h1 : recordRTCommand s (RTCommand.update c) with ⟨s1, err⟩
    have hs1 : s1 = (updateOrderCheck (updateMutate s c) c).1 :=
      (congrArg Prod.fst h1).symm
    have hfirst : ((s.containers c).built && !(s.containers c).updated) = false := by
      simp [hupd]
    have hact : s1.actions = s.actions ++
        [NativeAction.buildAccel (s.containers c).resultAddr (s.containers c).resultAddr
          (s.containers c).updateAddr true,
         NativeAction.uavBarrier (s.containers c).resultAddr] := by
      rw [hs1, (updateOrderCheck_preserves _ c).2.1]
      simp [updateMutate, hfirst]
    have hcnt : (s1.actions).count (NativeAction.destroyScratchBuild c) =
        (s.actions).count (NativeAction.destroyScratchBuild c) := by
      rw [hact]
      simp [List.count_append, List.count_cons]
    have hupd1 : (s1.containers c).updated = true := by
      rw [hs1, (updateOrderCheck_preserves _ c).1]
      simp [updateMutate, hfirst, setContainer, hupd]
    cases err with
    | none =>
      have hstream : recordRTStream (RTCommand.update c :: List.replicate m (RTCommand.update c)) s =
          recordRTStream (List.replicate m (RTCommand.update c)) s1 := by
        simp only [recordRTStream, h1]
      rw [hstream, ihm s1 hupd1, hcnt]
    | some e =>
      have hstream : recordRTStream (RTCommand.update c :: List.replicate m (RTCommand.update c)) s =
          (s1, some e) := by
        simp only [recordRTStream, h1]
      rw [hstream]
      exact hcnt

/-- C7: every update command records exactly one native build call with the
perform-update flag set, source and destination both the container's result
memory and scratch the update-scratch memory, preceded (exactly on the first
update after a build, `IsBuilt()` true and `IsUpdated()` false) by the
release of the build-scratch memory; over a stream of updates of a built,
not-yet-updated container the build scratch is released exactly once, on the
first update. -/
theorem updateCommand_scratch_release_and_native_call :
    (∀ (s : RecState) (c : Nat),
      ((recordRTCommand s (RTCommand.update c)).1).actions = s.actions ++
        (if (s.containers c).built && !(s.containers c).updated then
          [NativeAction.destroyScratchBuild c]
         else []) ++
        [NativeAction.buildAccel (s.containers c).resultAddr (s.containers c).resultAddr
          (s.containers c).updateAddr true,
         NativeAction.uavBarrier (s.containers c).resultAddr])
    ∧ (∀ (c0 : Nat → AccelContainer) (c n : Nat),
        (c0 c).built = true → (c0 c).updated = false →
        (((recordRTStream (List.replicate n (RTCommand.update c))
            (initRecState c0)).1).actions).count (NativeAction.destroyScratchBuild c) =
          if n = 0 then 0 else 1) := by
  constructor
  · intro s c
    have hp : ((recordRTCommand s (RTCommand.update c)).1).actions =
        (updateMutate s c).actions :=
      (updateOrderCheck_preserves (updateMutate s c) c).2.1
    rw [hp]
    by_cases hf : ((s.containers c).built && !(s.containers c).updated) = true <;>
      simp [updateMutate, hf]
  · intro c0 c n hb hu
    cases n with
    | zero => simp [recordRTStream, initRecState]
    | succ m =>
      rw [List.replicate_succ]
      rcases h1 : recordRTCommand (initRecState c0) (RTCommand.update c) with ⟨s1, err⟩
      have hs1 : s1 = (updateOrderCheck (updateMutate (initRecState c0) c) c).1 :=
        (congrArg Prod.fst h1).symm
      have herr : err = none := by
        have h2 := (congrArg Prod.snd h1).symm
        have h3 : updateOrderCheck (updateMutate (initRecState c0) c) c =
            ({ updateMutate (initRecState c0) c with lastUpdateContainer := some c }, none) := by
          unfold updateOrderCheck
          rfl
        rw [show recordRTCommand (initRecState c0) (RTCommand.update c) =
            updateOrderCheck (updateMutate (initRecState c0) c) c from rfl, h3] at h1
        exact ((Prod.mk.injEq _ _ _ _).mp h1).2.symm
      have hfirst : ((c0 c).built && !(c0 c).updated) = true := by
        simp [hb, hu]
      have hact : s1.actions =
          [NativeAction.destroyScratchBuild c,
           NativeAction.buildAccel (c0 c).resultAddr (c0 c).resultAddr
             (c0 c).updateAddr true,
           NativeAction.uavBarrier (c0 c).resultAddr] := by
        rw [hs1, (updateOrderCheck_preserves _ c).2.1]
        simp [updateMutate, initRecState, hfirst]
      have hupd1 : (s1.containers c).updated = true := by
        rw [hs1, (updateOrderCheck_preserves _ c).1]
        simp [updateMutate, initRecState, hfirst, setContainer]
      subst herr
      have hstream : recordRTStream
          (RTCommand.update c :: List.replicate m (RTCommand.update c)) (initRecState c0) =
          recordRTStream (List.replicate m (RTCommand.update c)) s1 := by
        simp only [recordRTStream, h1]
      rw [hstream, recordRTStream_updates_no_destroy c m s1 hupd1, hact]
      simp [List.count_cons]

/-- A built, not-yet-updated bottom-level container for the C7 witness. -/
def c7Containers : Nat → AccelContainer := fun i =>
  { built := true
    updated := false
    hasBuildScratch := true
    level := ContainerLevel.bottom
    resultAddr := 10 + i
    buildAddr := 20 + i
    updateAddr := 30 + i }

/-- Witness for `updateCommand_scratch_release_and_native_call`: the first
update of built container 0 releases its build scratch before the native
perform-update call, and a stream of two updates releases it exactly once. -/
theorem updateCommand_scratch_release_and_native_call_witness :
    ((recordRTCommand (initRecState c7Containers) (RTCommand.update 0)).1).actions =
      [NativeAction.destroyScratchBuild 0,
       NativeAction.buildAccel 10 10 30 true,
       NativeAction.uavBarrier 10]
    ∧ (((recordRTStream (List.replicate 2 (RTCommand.update 0))
        (initRecState c7Containers)).1).actions).count
        (NativeAction.destroyScratchBuild 0) = 1 :=
  ⟨(updateCommand_scratch_release_and_native_call.1 (initRecState c7Containers) 0).trans
      (by decide),
   (updateCommand_scratch_release_and_native_call.2 c7Containers 0 2 rfl rfl).trans
      (by decide)⟩

/-! ## Theorems: vertex buffer tracker (claim C6) -/

/-- A running min-fold never exceeds its seed. -/
theorem foldlMin_le_init (l : List Nat) : ∀ a : Nat, l.foldl min a ≤ a := by
  induction l with
  | nil => intro a; exact le_refl a
  | cons y rest ih =>
    intro a
    calc rest.foldl min (min a y) ≤ min a y := ih (min a y)
      _ ≤ a := min_le_left a y

/-- A running min-fold is a lower bound for every list element. -/
theorem foldlMin_le (l : List Nat) : ∀ a x : Nat, x ∈ l → l.foldl min a ≤ x := by
  induction l with
  | nil => intro a x hx; simp at hx
  | cons y rest ih =>
    intro a x hx
    rcases List.mem_cons.mp hx with rfl | hx
    · calc rest.foldl min (min a x) ≤ min a x := foldlMin_le_init rest (min a x)
        _ ≤ x := min_le_right a x
    · exact ih (min a y) x hx

/-- A running min-fold either keeps its seed or lands on a list element. -/
theorem foldlMin_choice (l : List Nat) : ∀ a : Nat, l.foldl min a = a ∨ l.foldl min a ∈ l := by
  induction l with
  | nil => intro a; exact Or.inl rfl
  | cons y rest ih =>
    intro a
    rcases ih (min a y) with h | h
    · rcases min_choice a y with hm | hm
      · exact Or.inl (by rw [List.foldl_cons, h, hm])
      · exact Or.inr (by rw [List.foldl_cons, h, hm]; exact List.mem_cons_self y rest)
    · exact Or.inr (List.mem_cons_of_mem y h)

/-- The successor-max fold never drops below its seed. -/
theorem foldlMaxSucc_ge_init (l : List Nat) :
    ∀ a : Nat, a ≤ l.foldl (fun e s => max e (s + 1)) a := by
  induction l with
  | nil => intro a; exact le_refl a
  | cons y rest ih =>
    intro a
    calc a ≤ max a (y + 1) := le_max_left a (y + 1)
      _ ≤ rest.foldl (fun e s => max e (s + 1)) (max a (y + 1)) := ih (max a (y + 1))

/-- The successor-max fold bounds every element's successor from above. -/
theorem foldlMaxSucc_ge (l : List Nat) :
    ∀ a x : Nat, x ∈ l → x + 1 ≤ l.foldl (fun e s => max e (s + 1)) a := by
  induction l with
  | nil => intro a x hx; simp at hx
  | cons y rest ih =>
    intro a x hx
    rcases List.mem_cons.mp hx with rfl | hx
    · calc x + 1 ≤ max a (x + 1) := le_max_right a (x + 1)
        _ ≤ rest.foldl (fun e s => max e (s + 1)) (max a (x + 1)) :=
          foldlMaxSucc_ge_init rest (max a (x + 1))
    · exact ih (max a (y + 1)) x hx

/-- The successor-max fold either keeps its seed or is the successor of a
list element. -/
theorem foldlMaxSucc_choice (l : List Nat) :
    ∀ a : Nat, l.foldl (fun e s => max e (s + 1)) a = a
      ∨ ∃ x ∈ l, l.foldl (fun e s => max e (s + 1)) a = x + 1 := by
  induction l with
  | nil => intro a; exact Or.inl rfl
  | cons y rest ih =>
    intro a
    rcases ih (max a (y + 1)) with h | ⟨x, hx, h⟩
    · rcases max_choice a (y + 1) with hm | hm
      · exact Or.inl (by rw [List.foldl_cons, h, hm])
      · exact Or.inr ⟨y, List.mem_cons_self y rest, by rw [List.foldl_cons, h, hm]⟩
    · exact Or.inr ⟨x, List.mem_cons_of_mem y hx, h⟩

/-- Slots outside the used-slot list keep their views across the stride
refresh. -/
theorem applyStrides_not_mem (p : RenderPipelineModel) (l : List Nat) :
    ∀ (views : Nat → D3D12VertexBufferView) (s : Nat), s ∉ l →
      applyStrides p views l s = views s := by
  induction l with
  | nil => intro views s _; rfl
  | cons y rest ih =>
    intro views s hs
    have hsy : s ≠ y := fun h => hs (h ▸ List.mem_cons_self y rest)
    have hsr : s ∉ rest := fun h => hs (List.mem_cons_of_mem y h)
    simp only [applyStrides]
    rw [ih _ s hsr]
    simp [hsy]

/-- After the stride refresh over a duplicate-free used-slot list, every used
slot carries the pipeline's declared stride. -/
theorem applyStrides_stride (p : RenderPipelineModel) (l : List Nat) (hnd : l.Nodup) :
    ∀ (views : Nat → D3D12VertexBufferView) (s : Nat), s ∈ l →
      (applyStrides p views l s).strideInBytes = p.arrayStride s := by
  induction l with
  | nil => intro views s hs; simp at hs
  | cons y rest ih =>
    intro views s hs
    rcases List.mem_cons.mp hs with rfl | hs
    · have hsr : s ∉ rest := (List.nodup_cons.mp hnd).1
      rw [applyStrides, applyStrides_not_mem p rest _ s hsr]
      simp
    · exact ih (List.nodup_cons.mp hnd).2 _ s hs

/-- The dirty-range start after a run of `SetVertexBuffer`s is the running
min of the touched slots. -/
theorem runSetVB_startSlot (ops : List SetVBCmd) :
    ∀ t : VertexBufferTrackerState,
      (ops.foldl (fun t o => onSetVertexBuffer t o.slot o.bufferVA o.offset o.size) t).startSlot
        = (ops.map (fun o => o.slot)).foldl min t.startSlot := by
  induction ops with
  | nil => intro t; rfl
  | cons o rest ih =>
    intro t
    rw [List.foldl_cons, ih, List.map_cons, List.foldl_cons]
    rfl

/-- The dirty-range end after a run of `SetVertexBuffer`s is the running max
of the touched slots' successors. -/
theorem runSetVB_endSlot (ops : List SetVBCmd) :
    ∀ t : VertexBufferTrackerState,
      (ops.foldl (fun t o => onSetVertexBuffer t o.slot o.bufferVA o.offset o.size) t).endSlot
        = (ops.map (fun o => o.slot)).foldl (fun e s => max e (s + 1)) t.endSlot := by
  induction ops with
  | nil => intro t; rfl
  | cons o rest ih =>
    intro t
    rw [List.foldl_cons, ih, List.map_cons, List.foldl_cons]
    rfl

/-- `SetVertexBuffer` never touches the last-applied pipeline. -/
theorem runSetVB_lastApplied (ops : List SetVBCmd) :
    ∀ t : VertexBufferTrackerState,
      (ops.foldl (fun t o => onSetVertexBuffer t o.slot o.bufferVA o.offset o.size)
        t).lastAppliedRenderPipeline = t.lastAppliedRenderPipeline := by
  induction ops with
  | nil => intro t; rfl
  | cons o rest ih =>
    intro t
    rw [List.foldl_cons, ih]
    rfl

/-- C6: after any sequence of `SetVertexBuffer` commands on a fresh tracker,
an `Apply` under a newly bound pipeline emits exactly one native
`IASetVertexBuffers` call; the call covers precisely the contiguous span of
the union of the dirtied slots and the slots the pipeline declares as used
(its start slot and its last covered slot are both in that union, and every
slot of the union is covered), and within the call every slot the pipeline
declares carries the stride the pipeline declares for it. -/
theorem vertexBufferApply_single_call_union (ops : List SetVBCmd) (p : RenderPipelineModel)
    (hops : ∀ o ∈ ops, o.slot < kMaxVertexBuffers)
    (hne : ops ≠ [] ∨ usedSlotsList p ≠ []) :
    ∃ call : IASetVertexBuffersCall,
      (vertexBufferApply (runSetVertexBuffers ops) p).2 = [call]
      ∧ (∀ s, s ∈ ops.map (fun o => o.slot) ++ usedSlotsList p →
          call.startSlot ≤ s ∧ s < call.startSlot + call.count)
      ∧ call.startSlot ∈ ops.map (fun o => o.slot) ++ usedSlotsList p
      ∧ call.startSlot + call.count - 1 ∈ ops.map (fun o => o.slot) ++ usedSlotsList p
      ∧ ∀ s ∈ usedSlotsList p, ∃ v, call.views.get? (s - call.startSlot) = some v
          ∧ v.strideInBytes = p.arrayStride s := by
  set D := ops.map (fun o => o.slot) with hD
  set U := usedSlotsList p with hU
  set L := D ++ U with hL
  set t0 := runSetVertexBuffers ops with ht0
  set m := L.foldl min kMaxVertexBuffers with hm
  set e := L.foldl (fun a s => max a (s + 1)) 0 with he
  have hLne : L ≠ [] := by
    rcases hne with h | h
    · intro hnil
      rcases List.append_eq_nil.mp hnil with ⟨hDnil, _⟩
      exact h (List.map_eq_nil_iff.mp hDnil)
    · intro hnil
      exact h (List.append_eq_nil.mp hnil).2
  obtain ⟨x0, hx0⟩ := List.exists_mem_of_ne_nil L hLne
  have hLlt : ∀ x ∈ L, x < kMaxVertexBuffers := by
    intro x hx
    rcases List.mem_append.mp hx with hx | hx
    · obtain ⟨o, ho, rfl⟩ := List.mem_map.mp hx
      exact hops o ho
    · rw [hU, usedSlotsList] at hx
      exact List.mem_range.mp (List.mem_filter.mp hx).1
  have hm_le : ∀ x ∈ L, m ≤ x := fun x hx => foldlMin_le L kMaxVertexBuffers x hx
  have he_ge : ∀ x ∈ L, x + 1 ≤ e := fun x hx => foldlMaxSucc_ge L 0 x hx
  have hm_mem : m ∈ L := by
    rcases foldlMin_choice L kMaxVertexBuffers with h | h
    · exfalso
      rw [← hm] at h
      have h1 := hm_le x0 hx0
      rw [h] at h1
      exact absurd (hLlt x0 hx0) (not_lt.mpr h1)
    · rw [hm]
      exact h
  have he_mem : e - 1 ∈ L := by
    rcases foldlMaxSucc_choice L 0 with h | ⟨x, hx, hxe⟩
    · exfalso
      rw [← he] at h
      have h1 := he_ge x0 hx0
      rw [h] at h1
      exact absurd h1 (by simp)
    · rw [← he] at hxe
      rw [hxe]
      simpa using hx
  have hlt : m < e :=
    lt_of_le_of_lt (hm_le x0 hx0) (lt_of_lt_of_le (Nat.lt_succ_self x0) (he_ge x0 hx0))
  have hlast0 : t0.lastAppliedRenderPipeline = none :=
    runSetVB_lastApplied ops initVertexBufferTracker
  have hstart0 : t0.startSlot = D.foldl min kMaxVertexBuffers :=
    runSetVB_startSlot ops initVertexBufferTracker
  have hend0 : t0.endSlot = D.foldl (fun a s => max a (s + 1)) 0 :=
    runSetVB_endSlot ops initVertexBufferTracker
  have hchanged : t0.lastAppliedRenderPipeline ≠ some p.id := by
    rw [hlast0]
    exact fun h => Option.noConfusion h
  have hstartval : U.foldl min t0.startSlot = m := by
    rw [hstart0, hm, hL, List.foldl_append]
  have hendval : U.foldl (fun a s => max a (s + 1)) t0.endSlot = e := by
    rw [hend0, he, hL, List.foldl_append]
  have happly : (vertexBufferApply t0 p).2 =
      [{ startSlot := m, count := e - m,
         views := (List.range (e - m)).map
           (fun i => applyStrides p t0.bufferViews U (m + i)) }] := by
    unfold vertexBufferApply
    rw [← hU]
    simp only [if_pos hchanged]
    rw [hstartval, hendval, if_neg (not_le.mpr hlt)]
  refine ⟨_, happly, ?_, hm_mem, ?_, ?_⟩
  · intro s hs
    show m ≤ s ∧ s < m + (e - m)
    refine ⟨hm_le s hs, ?_⟩
    have h1 := he_ge s hs
    have h2 : m + (e - m) = e := Nat.add_sub_cancel' hlt.le
    omega
  · show m + (e - m) - 1 ∈ L
    have h2 : m + (e - m) = e := Nat.add_sub_cancel' hlt.le
    rw [h2]
    exact he_mem
  · intro s hsU
    have hsL : s ∈ L := List.mem_append.mpr (Or.inr hsU)
    have h1 : m ≤ s := hm_le s hsL
    have h2 : s + 1 ≤ e := he_ge s hsL
    have hidx : s - m < e - m := by omega
    have hUnodup : U.Nodup := by
      rw [hU, usedSlotsList]
      exact List.Nodup.filter _ (List.nodup_range _)
    refine ⟨applyStrides p t0.bufferViews U s, ?_, applyStrides_stride p U hUnodup _ s hsU⟩
    show ((List.range (e - m)).map
      (fun i => applyStrides p t0.bufferViews U (m + i))).get? (s - m) =
      some (applyStrides p t0.bufferViews U s)
    have h3 : m + (s - m) = s := Nat.add_sub_cancel' h1
    rw [List.get?_map, List.get?_range hidx, Option.map_some', h3]

/-- The claim's example sequence: buffers set at slots 2 and 5. -/
def c6Ops : List SetVBCmd :=
  [{ slot := 2, bufferVA := 1000, offset := 0, size := 64 },
   { slot := 5, bufferVA := 2000, offset := 16, size := 64 }]

/-- The claim's example pipeline: uses vertex buffer slots 0 through 3. -/
def c6Pipeline : RenderPipelineModel :=
  { id := 1
    vertexBufferSlotsUsed := fun s => decide (s < 4)
    arrayStride := fun s => 4 * s + 4 }

/-- Witness for `vertexBufferApply_single_call_union`, at the claim's own
example: setting buffers at slots 2 and 5, then applying under a new pipeline
using slots 0 through 3, emits one native call with start slot 0 and count 6
(covering slots 0 through 5). -/
theorem vertexBufferApply_single_call_union_witness :
    ((vertexBufferApply (runSetVertexBuffers c6Ops) c6Pipeline).2.map
        (fun call => (call.startSlot, call.count))) = [(0, 6)]
    ∧ ∃ call : IASetVertexBuffersCall,
      (vertexBufferApply (runSetVertexBuffers c6Ops) c6Pipeline).2 = [call]
      ∧ (∀ s, s ∈ c6Ops.map (fun o => o.slot) ++ usedSlotsList c6Pipeline →
          call.startSlot ≤ s ∧ s < call.startSlot + call.count)
      ∧ call.startSlot ∈ c6Ops.map (fun o => o.slot) ++ usedSlotsList c6Pipeline
      ∧ call.startSlot + call.count - 1 ∈
          c6Ops.map (fun o => o.slot) ++ usedSlotsList c6Pipeline
      ∧ ∀ s ∈ usedSlotsList c6Pipeline,
          ∃ v, call.views.get? (s - call.startSlot) = some v
            ∧ v.strideInBytes = c6Pipeline.arrayStride s :=
  ⟨by decide,
   vertexBufferApply_single_call_union c6Ops c6Pipeline (by decide) (Or.inl (by decide))⟩
